import Mathlib

/-!
# Verification of the lesson-posting bot's scheduling and resilience core

Shallow embedding of the core services of the Telegram e-learning bot
(`src/services/resilience_service.py`, `scheduler.py`, `bot_controller.py`,
`lesson_selector.py`, `lesson_repository.py`) and proofs about them.

Resource percentages and thresholds are Python floats in the source; the code
only ever compares them with `>`/`<`, so they are modelled as rationals (`ℚ`),
which has the same order-theoretic behaviour on the sampled values.
Timestamps are modelled as natural numbers (seconds).
-/

set_option maxHeartbeats 1000000

/-- `SystemMode` enum (resilience_service.py lines 21-26), with the Python
string `value` of each member kept alongside in `SystemMode.value`. -/
inductive SystemMode where
  | normal
  | degraded
  | minimal
  | emergency
deriving DecidableEq, Repr

/-- The Python `.value` string of each `SystemMode` member. -/
def SystemMode.value : SystemMode → String
  | .normal => "normal"
  | .degraded => "degraded"
  | .minimal => "minimal"
  | .emergency => "emergency"

/-- `ErrorSeverity` enum (resilience_service.py lines 29-34). -/
inductive ErrorSeverity where
  | low
  | medium
  | high
  | critical
deriving DecidableEq, Repr

/-- `ResourceThresholds` dataclass (resilience_service.py lines 37-57):
per-resource ceilings for the normal/degraded/minimal tiers, plus the
network-error and consecutive-failure thresholds. -/
structure ResourceThresholds where
  cpu_normal_max : ℚ := 70
  cpu_degraded_max : ℚ := 85
  cpu_minimal_max : ℚ := 95
  memory_normal_max : ℚ := 75
  memory_degraded_max : ℚ := 85
  memory_minimal_max : ℚ := 95
  disk_normal_max : ℚ := 80
  disk_degraded_max : ℚ := 90
  disk_minimal_max : ℚ := 95
  network_error_threshold : Nat := 3
  consecutive_failure_threshold : Nat := 5
deriving DecidableEq, Repr

/-- The default `ResourceThresholds()` instance used by `ResilienceService`. -/
def defaultThresholds : ResourceThresholds := {}

/-- `ResilienceService._determine_system_mode` (resilience_service.py lines
243-265): emergency if any resource exceeds its minimal ceiling, else minimal
if any exceeds its degraded ceiling, else degraded if any exceeds its normal
ceiling, else normal. -/
def determine_system_mode (t : ResourceThresholds)
    (cpu_percent memory_percent disk_percent : ℚ) : SystemMode :=
  if cpu_percent > t.cpu_minimal_max ∨ memory_percent > t.memory_minimal_max ∨
      disk_percent > t.disk_minimal_max then
    .emergency
  else if cpu_percent > t.cpu_degraded_max ∨ memory_percent > t.memory_degraded_max ∨
      disk_percent > t.disk_degraded_max then
    .minimal
  else if cpu_percent > t.cpu_normal_max ∨ memory_percent > t.memory_normal_max ∨
      disk_percent > t.disk_normal_max then
    .degraded
  else
    .normal

/-- Severity rank of a mode: Normal < Degraded < Minimal < Emergency.
This is the intended severity order of the spec (not the string order the
code uses in `_check_recovery_opportunities`). -/
def modeSeverity : SystemMode → Nat
  | .normal => 0
  | .degraded => 1
  | .minimal => 2
  | .emergency => 3

/-- The more severe of two modes under `modeSeverity`. -/
def modeMax (a b : SystemMode) : SystemMode :=
  if modeSeverity b ≤ modeSeverity a then a else b

/-- Modelled from the spec: the tier a single resource reading falls in,
given its three ceilings — emergency above the minimal ceiling, minimal above
the degraded ceiling, degraded above the normal ceiling, else normal. Used
only to state the refinement claim about `determine_system_mode`. -/
def resourceTier (normalMax degradedMax minimalMax x : ℚ) : SystemMode :=
  if x > minimalMax then .emergency
  else if x > degradedMax then .minimal
  else if x > normalMax then .degraded
  else .normal

/-- Python string `<` (code-point lexicographic order), as the comparison
`target_mode.value < self.current_mode.value` performs it
(resilience_service.py line 681). -/
def pyStrLt (a b : String) : Bool :=
  go a.data b.data
where
  go : List Char → List Char → Bool
    | [], [] => false
    | [], _ :: _ => true
    | _ :: _, [] => false
    | c :: cs, d :: ds =>
      if c < d then true
      else if d < c then false
      else go cs ds

/-- `ResilienceService._check_recovery_opportunities` (resilience_service.py
lines 668-690), restricted to its mode-changing effect: when the current mode
is not normal, recompute the resource-implied mode and adopt it exactly when
its enum `.value` string is lexicographically smaller than the current one. -/
def check_recovery_opportunities (t : ResourceThresholds) (current : SystemMode)
    (cpu_percent memory_percent disk_percent : ℚ) : SystemMode :=
  if current = .normal then current
  else
    let target := determine_system_mode t cpu_percent memory_percent disk_percent
    if pyStrLt target.value current.value then target else current

/-- The three states of a per-dependency circuit breaker; the Python strings
are 'closed', 'open', 'half_open' (`opened` stands for 'open', which is a
Lean keyword). -/
inductive CBState where
  | closed
  | opened
  | halfOpen
deriving DecidableEq, Repr

/-- One entry of `ResilienceService.circuit_breakers` (the per-service dict
initialised in `get_circuit_breaker_state`, resilience_service.py lines
717-729): state, failure count, last-failure timestamp (seconds), open
timeout and failure threshold. -/
structure Breaker where
  state : CBState
  failure_count : Nat
  last_failure : Option Nat
  timeout : Nat
  failure_threshold : Nat
deriving DecidableEq, Repr

/-- The breaker created on first use of a dependency name
(resilience_service.py lines 720-727): closed, zero failures, timeout 300s,
threshold 5. -/
def initBreaker : Breaker :=
  { state := .closed, failure_count := 0, last_failure := none,
    timeout := 300, failure_threshold := 5 }

/-- `ResilienceService.record_circuit_breaker_success` (resilience_service.py
lines 731-744), applied to the named breaker: success in half-open closes the
circuit and zeroes the count; success in closed zeroes the count; success in
open does nothing. -/
def record_circuit_breaker_success (b : Breaker) : Breaker :=
  if b.state = .halfOpen then
    { b with state := .closed, failure_count := 0 }
  else if b.state = .closed then
    { b with failure_count := 0 }
  else
    b

/-- `ResilienceService.record_circuit_breaker_failure` (resilience_service.py
lines 746-770), applied to the named breaker at time `now`: increment the
count, stamp the failure time, and open the breaker once the count reaches
the threshold. -/
def record_circuit_breaker_failure (now : Nat) (b : Breaker) : Breaker :=
  let b := { b with failure_count := b.failure_count + 1, last_failure := some now }
  if b.failure_count ≥ b.failure_threshold then
    { b with state := .opened }
  else
    b

/-- The per-breaker body of `ResilienceService._update_circuit_breakers`
(resilience_service.py lines 692-715): an open breaker whose last failure is
older than `timeout` seconds moves to half-open with a zeroed failure count;
everything else is untouched. -/
def update_circuit_breaker (now : Nat) (b : Breaker) : Breaker :=
  match b.state, b.last_failure with
  | .opened, some lf =>
    if now - lf > b.timeout then
      { b with state := .halfOpen, failure_count := 0 }
    else
      b
  | _, _ => b

/-- One operation on a single named breaker: the gate consultation
(`get_circuit_breaker_state` on an existing entry, a pure read), a recorded
success, a recorded failure at a time, or one pass of the background
half-open sweep at a time. -/
inductive BreakerOp where
  | allow
  | recordSuccess
  | recordFailure (now : Nat)
  | sweep (now : Nat)
deriving DecidableEq, Repr

/-- Apply one `BreakerOp` to a breaker. `allow` only reads the state
(resilience_service.py lines 717-729 on an already-initialised entry). -/
def stepBreaker : BreakerOp → Breaker → Breaker
  | .allow, b => b
  | .recordSuccess, b => record_circuit_breaker_success b
  | .recordFailure now, b => record_circuit_breaker_failure now b
  | .sweep now, b => update_circuit_breaker now b

/-- The names registered by
`ResilienceService._register_default_recovery_actions`
(resilience_service.py lines 548-666). -/
def defaultRecoveryActionNames : List String :=
  ["network_reconnection", "cleanup_resources", "aggressive_cleanup", "emergency_cleanup"]

/-- The recovery-action name `handle_operation_failure` selects once the
consecutive-failure threshold is crossed (resilience_service.py lines
467-473): critical → emergency_recovery, high → system_restart, otherwise
service_restart. -/
def severityActionName : ErrorSeverity → String
  | .critical => "emergency_recovery"
  | .high => "system_restart"
  | _ => "service_restart"

/-- The early-exit of `ResilienceService._execute_recovery_action`
(resilience_service.py lines 487-489): a name absent from the registry is
rejected (logged as an unknown action) and the call returns false without
executing anything. For a registered name the source goes on to check the
cooldown window and run the action; every dispatch reachable in the claims
below uses a name outside the default registry, so that branch never runs
here and its outcome is abstracted as a plain successful execution. The
returned option is the action that was actually executed, if any. -/
def execute_recovery_action (registry : List String) (name : String) :
    Bool × Option String :=
  if name ∈ registry then (true, some name) else (false, none)

/-- The failure-counting core of the resilience coordinator's state:
consecutive operation failures and rolling network errors
(resilience_service.py lines 83-85). -/
structure RState where
  consecutive_failures : Nat
  network_error_count : Nat
deriving DecidableEq, Repr

/-- `ResilienceService.handle_operation_failure` (resilience_service.py lines
424-475) under a given recovery registry: increment the consecutive-failure
counter; once it reaches `consecutive_failure_threshold` (default 5),
dispatch the severity-selected action. Returns the new state, the boolean
result of the call, and the name of the action executed (if any). -/
def handle_operation_failure (t : ResourceThresholds) (registry : List String)
    (st : RState) (severity : ErrorSeverity) : RState × Bool × Option String :=
  let st := { st with consecutive_failures := st.consecutive_failures + 1 }
  if st.consecutive_failures ≥ t.consecutive_failure_threshold then
    let (res, executed) := execute_recovery_action registry (severityActionName severity)
    (st, res, executed)
  else
    (st, true, none)

/-- `ResilienceService.handle_network_error` (resilience_service.py lines
379-422), restricted to its counter effect: increment the network-error
count; at the threshold it dispatches the registered "network_reconnection"
action, whose only effect on the state modelled here is a saturating
decrement of the same counter when it runs (lines 552-566). The cooldown
bookkeeping of that registered action is irrelevant to every claim below and
is not modelled; this definition takes the dispatch outcome as the argument
`reconnectionRuns`. -/
def handle_network_error (t : ResourceThresholds) (reconnectionRuns : Bool)
    (st : RState) : RState :=
  let st := { st with network_error_count := st.network_error_count + 1 }
  if st.network_error_count ≥ t.network_error_threshold ∧ reconnectionRuns then
    { st with network_error_count := st.network_error_count - 1 }
  else
    st

/-- A row of the `lessons` table as the `Lesson` dataclass carries it
(models/lesson.py): identifier, category, creation timestamp, nullable
last-used timestamp and usage count. Timestamps are seconds as naturals. -/
structure Lesson where
  id : Nat
  category : String
  created_at : Nat
  last_used : Option Nat
  usage_count : Nat
deriving DecidableEq, Repr

/-- Sort a lesson list by a numeric key; models the SQL `ORDER BY` clauses
of the repository (tie order is unspecified in SQL, so any stable order is
faithful). -/
def sortLessonsBy (key : Lesson → Nat) (l : List Lesson) : List Lesson :=
  List.insertionSort (fun a b => key a ≤ key b) l

/-- `LessonRepository.get_unused_lessons` (lesson_repository.py lines
196-213): rows with `last_used IS NULL`, ordered by `created_at`. -/
def get_unused_lessons (store : List Lesson) : List Lesson :=
  sortLessonsBy (fun l => l.created_at) (store.filter fun l => l.last_used = none)

/-- `LessonRepository.get_least_recently_used_lesson` (lesson_repository.py
lines 215-235): among rows with `last_used IS NOT NULL`, the one with the
smallest `last_used`, or none. -/
def get_least_recently_used_lesson (store : List Lesson) : Option Lesson :=
  (sortLessonsBy (fun l => l.last_used.getD 0)
    (store.filter fun l => l.last_used ≠ none)).head?

/-- `LessonSelector._select_least_recent` (lesson_selector.py lines 198-211):
with a category filter, sort that category by `last_used or datetime.min`
(null sorts first, modelled as key 0) and take the head; otherwise delegate
to the repository's global least-recently-used query. -/
def select_least_recent (store : List Lesson) (category_filter : Option String) :
    Option Lesson :=
  match category_filter with
  | some c =>
    (sortLessonsBy (fun l => l.last_used.getD 0)
      (store.filter fun l => l.category = c)).head?
  | none => get_least_recently_used_lesson store

/-- `LessonSelector._select_unused_first` (lesson_selector.py lines 183-196):
take the first unused lesson (oldest by creation), optionally filtered by
category; if no unused lesson remains, fall back to least-recently-used. -/
def select_unused_first (store : List Lesson) (category_filter : Option String) :
    Option Lesson :=
  let unused := get_unused_lessons store
  let unused := match category_filter with
    | some c => unused.filter fun l => l.category = c
    | none => unused
  match unused with
  | l :: _ => some l
  | [] => select_least_recent store category_filter

/-- `LessonSelector.get_next_lesson` with the default `UNUSED_FIRST` strategy
and no category filter (lesson_selector.py lines 38-77), which is what
`LessonManager.get_next_lesson_to_post` runs for the daily post: none when
the store is empty, else `_select_unused_first`. -/
def get_next_lesson (store : List Lesson) : Option Lesson :=
  if store.length = 0 then none
  else select_unused_first store none

/-- The results of calling `get_next_lesson` `n` times with no intervening
store mutation: the selector keeps no per-call state on this path, so each
call evaluates the same query against the same store. -/
def get_next_lesson_calls (store : List Lesson) (n : Nat) : List (Option Lesson) :=
  List.replicate n (get_next_lesson store)

/-- `LessonRepository.mark_lesson_used` (lesson_repository.py lines 181-194)
with `Lesson.mark_used` (models/lesson.py lines 94-97): look the lesson up
by id, set `last_used := now`, increment `usage_count`, and write the row
back; false when the id is absent. -/
def mark_lesson_used (now : Nat) (store : List Lesson) (lessonId : Nat) :
    List Lesson × Bool :=
  if store.any fun l => l.id = lessonId then
    (store.map fun l =>
      if l.id = lessonId then
        { l with last_used := some now, usage_count := l.usage_count + 1 }
      else l, true)
  else
    (store, false)

/-- A pending APScheduler job, reduced to the fields the claims touch: its
string id and the lesson it is for. -/
structure Job where
  id : String
  lesson_id : Nat
deriving DecidableEq, Repr

/-- The id under which `_execute_daily_post` schedules the follow-up quiz job
(scheduler.py line 235): a function of the lesson id alone. -/
def quizJobId (lessonId : Nat) : String :=
  "quiz_for_lesson_" ++ toString lessonId

/-- APScheduler's `add_job(..., replace_existing=True)` as the scheduler
invokes it (scheduler.py lines 230-238): any pending job with the same id is
replaced by the new registration, so ids stay unique in the job store. -/
def add_job_replace (jobs : List Job) (j : Job) : List Job :=
  (jobs.filter fun k => k.id ≠ j.id) ++ [j]

/-- The quiz-scheduling step of `_execute_daily_post` (scheduler.py lines
229-241): register a one-shot job keyed by `quiz_for_lesson_<id>`, replacing
any existing one. -/
def schedule_quiz_job (jobs : List Job) (lessonId : Nat) : List Job :=
  add_job_replace jobs { id := quizJobId lessonId, lesson_id := lessonId }

/-- The success path of the `resilient_operation` context manager
(resilience_service.py lines 793-802): record a circuit-breaker success for
the named service and zero the consecutive-failure counter when positive. -/
def resilient_operation_success (b : Breaker) (r : RState) : Breaker × RState :=
  (record_circuit_breaker_success b,
    if r.consecutive_failures > 0 then { r with consecutive_failures := 0 } else r)

/-- The exception path of the `resilient_operation` context manager
(resilience_service.py lines 804-811): record a circuit-breaker failure for
the named service and run `handle_operation_failure` with its default
`MEDIUM` severity, then re-raise. This runs for every exception raised in
the guarded block, the rate-limit `RetryAfter` signal included. -/
def resilient_operation_failure (t : ResourceThresholds) (registry : List String)
    (now : Nat) (b : Breaker) (r : RState) : Breaker × RState :=
  (record_circuit_breaker_failure now b,
    (handle_operation_failure t registry r .medium).1)

/-- The classified outcome of one `bot.send_message` attempt, mirroring the
exception classes `_send_with_retry` handles (bot_controller.py lines
279-378): success, `BadRequest`/`Forbidden` (permanent), `RetryAfter` with
its channel-provided wait, `TimedOut`/`NetworkError`, other `TelegramError`,
or any other exception. -/
inductive SendOutcome where
  | ok (messageId : Nat)
  | badRequest (msg : String)
  | retryAfter (seconds : Nat)
  | netError (msg : String)
  | telegramError (msg : String)
  | unexpected (msg : String)
deriving DecidableEq, Repr

/-- The state `_send_with_retry` threads through the resilience service: the
"telegram_api" circuit breaker and the failure counters. -/
structure BotState where
  breaker : Breaker
  res : RState
deriving DecidableEq, Repr

/-- The observable result of a `_send_with_retry` run: the returned flags,
the attempt count, the sleeps the loop performed as (attempt index, seconds)
pairs in order, and the final resilience state. -/
structure SendRun where
  success : Bool
  attempts : Nat
  permanent_error : Bool
  circuit_breaker_open : Bool
  sleeps : List (Nat × Nat)
  final : BotState
deriving DecidableEq, Repr

/-- The retry loop of `BotController._send_with_retry` (bot_controller.py
lines 279-399). `script i` is the outcome of the send attempt with index
`i`; `fuel` counts the loop iterations left (`retry_attempts + 1 - i`). Each
attempt runs inside `resilient_operation(_, "telegram_api")`, so every
failed attempt first takes that wrapper's exception path; the matching
`except` clause in the loop then runs. The wall clock is held at `now`
(elapsed time within one send affects no field a claim mentions), and
`reconnectionRuns` is the outcome of the cooldown check of the registered
"network_reconnection" action inside `handle_network_error`. -/
def send_with_retry_go (t : ResourceThresholds) (registry : List String)
    (reconnectionRuns : Bool) (retry_delay retry_attempts now : Nat)
    (script : Nat → SendOutcome) (st : BotState) (i fuel : Nat) : SendRun :=
  match fuel with
  | 0 =>
    let b := record_circuit_breaker_failure now st.breaker
    let r := (handle_operation_failure t registry st.res .high).1
    { success := false, attempts := retry_attempts + 1, permanent_error := false,
      circuit_breaker_open := false, sleeps := [], final := { breaker := b, res := r } }
  | fuel + 1 =>
    if st.breaker.state = .opened then
      let r := (handle_operation_failure t registry st.res .critical).1
      { success := false, attempts := i + 1, permanent_error := false,
        circuit_breaker_open := false, sleeps := [], final := { st with res := r } }
    else
      match script i with
      | .ok _ =>
        let br := resilient_operation_success st.breaker st.res
        { success := true, attempts := i + 1, permanent_error := false,
          circuit_breaker_open := false, sleeps := [],
          final := { breaker := br.1, res := br.2 } }
      | .badRequest _ =>
        let br := resilient_operation_failure t registry now st.breaker st.res
        let b := record_circuit_breaker_failure now br.1
        let r := (handle_operation_failure t registry br.2 .high).1
        { success := false, attempts := i + 1, permanent_error := true,
          circuit_breaker_open := false, sleeps := [], final := { breaker := b, res := r } }
      | .retryAfter w =>
        let br := resilient_operation_failure t registry now st.breaker st.res
        let rest := send_with_retry_go t registry reconnectionRuns retry_delay
          retry_attempts now script { breaker := br.1, res := br.2 } (i + 1) fuel
        { rest with sleeps := (i, w) :: rest.sleeps }
      | .netError _ =>
        let br := resilient_operation_failure t registry now st.breaker st.res
        if i < retry_attempts then
          let r := handle_network_error t reconnectionRuns br.2
          let rest := send_with_retry_go t registry reconnectionRuns retry_delay
            retry_attempts now script { breaker := br.1, res := r } (i + 1) fuel
          { rest with sleeps := (i, retry_delay * 2 ^ i) :: rest.sleeps }
        else
          send_with_retry_go t registry reconnectionRuns retry_delay
            retry_attempts now script { breaker := br.1, res := br.2 } (i + 1) fuel
      | .telegramError _ =>
        let br := resilient_operation_failure t registry now st.breaker st.res
        if i < retry_attempts then
          let r := (handle_operation_failure t registry br.2 .medium).1
          let rest := send_with_retry_go t registry reconnectionRuns retry_delay
            retry_attempts now script { breaker := br.1, res := r } (i + 1) fuel
          { rest with sleeps := (i, retry_delay * 2 ^ i) :: rest.sleeps }
        else
          send_with_retry_go t registry reconnectionRuns retry_delay
            retry_attempts now script { breaker := br.1, res := br.2 } (i + 1) fuel
      | .unexpected _ =>
        let br := resilient_operation_failure t registry now st.breaker st.res
        let r := (handle_operation_failure t registry br.2 .critical).1
        { success := false, attempts := i + 1, permanent_error := false,
          circuit_breaker_open := false, sleeps := [],
          final := { breaker := br.1, res := r } }

/-- `BotController._send_with_retry` (bot_controller.py lines 254-399): bail
out with no attempt when the "telegram_api" breaker is already open, else
run the retry loop over attempts `0 .. retry_attempts`. -/
def send_with_retry (t : ResourceThresholds) (registry : List String)
    (reconnectionRuns : Bool) (retry_delay retry_attempts now : Nat)
    (script : Nat → SendOutcome) (st : BotState) : SendRun :=
  if st.breaker.state = .opened then
    { success := false, attempts := 0, permanent_error := false,
      circuit_breaker_open := true, sleeps := [], final := st }
  else
    send_with_retry_go t registry reconnectionRuns retry_delay retry_attempts now
      script st 0 (retry_attempts + 1)

/-- The state `SchedulerService._execute_daily_post` threads: the lesson
store, the pending job store, the "scheduler" circuit breaker and the
failure counters. -/
structure SchedState where
  store : List Lesson
  jobs : List Job
  breaker : Breaker
  res : RState
deriving DecidableEq, Repr

/-- The slice of a `BotController.send_lesson` result dict that
`_execute_daily_post` branches on (scheduler.py lines 209, 267). -/
structure SendRes where
  success : Bool
  attempts : Nat
  permanent_error : Bool
deriving DecidableEq, Repr

/-- The observable result of one `_execute_daily_post` run: the returned
success flag, the `PostingHistory` records written as (lesson id, success)
pairs, the trace of the scheduler's own `handle_operation_failure`
invocations as (operation, severity) pairs, and the final state. The send
path's internal resilience traffic lives in `send_with_retry` and is not
repeated here. -/
structure DailyRun where
  success : Bool
  history : List (Option Nat × Bool)
  opFailures : List (String × ErrorSeverity)
  final : SchedState
deriving DecidableEq, Repr

/-- `SchedulerService._execute_daily_post` (scheduler.py lines 172-304) with
the lesson-manager and bot-controller boundaries as parameters: `lesson` is
what `get_next_lesson_to_post` returned and `sendRes` is what `send_lesson`
would return for it. The whole body runs inside
`resilient_operation("daily_post", "scheduler")`, so an open "scheduler"
breaker raises before the body (handled by the generic except at lines
288-304), and every branch that returns normally — the no-lesson branch
included — then takes the wrapper's success path, which records a breaker
success and zeroes the consecutive-failure counter. -/
def execute_daily_post (t : ResourceThresholds) (registry : List String)
    (now : Nat) (enable_quizzes : Bool) (st : SchedState)
    (lesson : Option Lesson) (sendRes : SendRes) : DailyRun :=
  if st.breaker.state = .opened then
    let r := (handle_operation_failure t registry st.res .critical).1
    { success := false, history := [(none, false)],
      opFailures := [("daily_post", .critical)], final := { st with res := r } }
  else
    match lesson with
    | none =>
      let r := (handle_operation_failure t registry st.res .medium).1
      let br := resilient_operation_success st.breaker r
      { success := false, history := [(none, false)],
        opFailures := [("daily_post", .medium)],
        final := { st with breaker := br.1, res := br.2 } }
    | some l =>
      if sendRes.success then
        let store := (mark_lesson_used now st.store l.id).1
        let jobs := if enable_quizzes then schedule_quiz_job st.jobs l.id else st.jobs
        let br := resilient_operation_success st.breaker st.res
        { success := true, history := [(some l.id, true)], opFailures := [],
          final := { store := store, jobs := jobs, breaker := br.1, res := br.2 } }
      else
        let sev := if sendRes.permanent_error then ErrorSeverity.high else .medium
        let r := (handle_operation_failure t registry st.res sev).1
        let br := resilient_operation_success st.breaker r
        { success := false, history := [(some l.id, false)],
          opFailures := [("daily_post", sev)],
          final := { st with breaker := br.1, res := br.2 } }

/-- C3 counterexample: a breaker sitting in half_open (as the sweep leaves
it: failure count zeroed) records a single failure and stays in half_open —
it does not transition back to open, refuting the claim that a single
failure in half_open reopens the breaker. -/
theorem c3_half_open_single_failure_stays_half_open :
    (record_circuit_breaker_failure 100
      { state := .halfOpen, failure_count := 0, last_failure := some 0,
        timeout := 300, failure_threshold := 5 }).state = .halfOpen ∧
    (record_circuit_breaker_failure 100
      { state := .halfOpen, failure_count := 0, last_failure := some 0,
        timeout := 300, failure_threshold := 5 }).state ≠ .opened := by
  decide

/-- C3 (amended): in half_open a single recorded success closes the breaker
and zeroes its count; a recorded failure increments the count and reopens
the breaker only when the incremented count reaches the failure threshold,
staying in half_open below it. -/
theorem c3_amended_half_open_transitions (b : Breaker) (now : Nat)
    (h : b.state = .halfOpen) :
    (record_circuit_breaker_success b).state = .closed ∧
    (record_circuit_breaker_success b).failure_count = 0 ∧
    (record_circuit_breaker_failure now b).failure_count = b.failure_count + 1 ∧
    (b.failure_count + 1 ≥ b.failure_threshold →
      (record_circuit_breaker_failure now b).state = .opened) ∧
    (b.failure_count + 1 < b.failure_threshold →
      (record_circuit_breaker_failure now b).state = .halfOpen) := by
  unfold record_circuit_breaker_success record_circuit_breaker_failure
  refine ⟨by simp [h], by simp [h], ?_, ?_, ?_⟩
  · by_cases hth : b.failure_count + 1 ≥ b.failure_threshold <;> simp [hth]
  · intro hth; simp [hth]
  · intro hth
    have hth' : ¬ b.failure_count + 1 ≥ b.failure_threshold := by omega
    simp [hth', h]

/-- C3 amended witness: evaluated on the initialised breaker in half_open
with a zero count, and on one sitting at four failures. -/
theorem c3_amended_half_open_transitions_witness :
    (record_circuit_breaker_success
      { state := .halfOpen, failure_count := 0, last_failure := some 0,
        timeout := 300, failure_threshold := 5 }).state = .closed ∧
    (record_circuit_breaker_failure 100
      { state := .halfOpen, failure_count := 4, last_failure := some 0,
        timeout := 300, failure_threshold := 5 }).state = .opened := by
  refine ⟨(c3_amended_half_open_transitions
    { state := .halfOpen, failure_count := 0, last_failure := some 0,
      timeout := 300, failure_threshold := 5 } 100 rfl).1, ?_⟩
  exact (c3_amended_half_open_transitions
    { state := .halfOpen, failure_count := 4, last_failure := some 0,
      timeout := 300, failure_threshold := 5 } 100 rfl).2.2.2.1 (by decide)

/-- C4 counterexample: an open breaker at the failure threshold is moved to
half_open by the sweep once the timeout has elapsed, and the sweep zeroes
the consecutive-failure count — a reset performed neither by RecordSuccess
nor by a half_open-to-closed transition, refuting the "only by" clause. -/
theorem c4_sweep_zeroes_failure_count :
    (stepBreaker (.sweep 301)
      { state := .opened, failure_count := 5, last_failure := some 0,
        timeout := 300, failure_threshold := 5 }).failure_count = 0 ∧
    ({ state := .opened, failure_count := 5, last_failure := some 0,
        timeout := 300, failure_threshold := 5 } : Breaker).failure_count ≠ 0 ∧
    (stepBreaker (.sweep 301)
      { state := .opened, failure_count := 5, last_failure := some 0,
        timeout := 300, failure_threshold := 5 }).state = .halfOpen ∧
    BreakerOp.sweep 301 ≠ .recordSuccess := by
  decide

/-- C4 (amended): across the breaker operations, the failure count is set to
zero only by RecordSuccess or by the sweep's open-to-half_open transition,
and the state never moves from open directly to closed. -/
theorem c4_amended_counter_resets_and_no_open_to_closed (b : Breaker)
    (o : BreakerOp) :
    ((stepBreaker o b).failure_count = 0 →
      b.failure_count = 0 ∨ o = .recordSuccess ∨
      (∃ now, o = .sweep now ∧ b.state = .opened ∧
        (stepBreaker o b).state = .halfOpen)) ∧
    (b.state = .opened → (stepBreaker o b).state ≠ .closed) := by
  cases o with
  | allow =>
    refine ⟨fun h => Or.inl h, fun h => ?_⟩
    simp [stepBreaker, h]
  | recordSuccess =>
    exact ⟨fun _ => Or.inr (Or.inl rfl), fun h => by
      simp [stepBreaker, record_circuit_breaker_success, h]⟩
  | recordFailure now =>
    constructor
    · intro h
      exfalso
      unfold stepBreaker record_circuit_breaker_failure at h
      by_cases hth : b.failure_count + 1 ≥ b.failure_threshold <;> simp [hth] at h
    · intro h
      unfold stepBreaker record_circuit_breaker_failure
      by_cases hth : b.failure_count + 1 ≥ b.failure_threshold <;> simp [hth, h]
  | sweep now =>
    constructor
    · intro h
      rcases hbs : b.state with _ | _ | _
      · simp only [stepBreaker] at h
        unfold update_circuit_breaker at h
        simp [hbs] at h
        exact Or.inl h
      · rcases hlf : b.last_failure with _ | lf
        · simp only [stepBreaker] at h
          unfold update_circuit_breaker at h
          simp [hbs, hlf] at h
          exact Or.inl h
        · by_cases htm : now - lf > b.timeout
          · refine Or.inr (Or.inr ⟨now, rfl, hbs ▸ rfl, ?_⟩)
            simp only [stepBreaker]
            unfold update_circuit_breaker
            simp [hbs, hlf, htm]
          · simp only [stepBreaker] at h
            unfold update_circuit_breaker at h
            simp [hbs, hlf, htm] at h
            exact Or.inl h
      · simp only [stepBreaker] at h
        unfold update_circuit_breaker at h
        simp [hbs] at h
        exact Or.inl h
    · intro h
      simp only [stepBreaker]
      unfold update_circuit_breaker
      rcases hlf : b.last_failure with _ | lf
      · simp [h, hlf]
      · by_cases htm : now - lf > b.timeout <;> simp [h, hlf, htm]

/-- C4 amended witness: evaluated on the sweep of an open breaker past its
timeout. -/
theorem c4_amended_witness :
    (stepBreaker (.sweep 301)
      { state := .opened, failure_count := 5, last_failure := some 0,
        timeout := 300, failure_threshold := 5 }).state ≠ .closed :=
  (c4_amended_counter_resets_and_no_open_to_closed
    { state := .opened, failure_count := 5, last_failure := some 0,
      timeout := 300, failure_threshold := 5 } (.sweep 301)).2 rfl

/-- C6: the severity-to-action mapping of `handle_operation_failure` selects
"emergency_recovery" / "system_restart" / "service_restart", but none of
these names is in the default recovery registry, so at the failing input
(four prior consecutive failures, a fifth failure of Medium severity) the
dispatch finds no action, executes nothing, and the call returns false. -/
theorem c6_severity_actions_not_registered :
    severityActionName .critical = "emergency_recovery" ∧
    severityActionName .high = "system_restart" ∧
    severityActionName .medium = "service_restart" ∧
    severityActionName .low = "service_restart" ∧
    "emergency_recovery" ∉ defaultRecoveryActionNames ∧
    "system_restart" ∉ defaultRecoveryActionNames ∧
    "service_restart" ∉ defaultRecoveryActionNames ∧
    handle_operation_failure defaultThresholds defaultRecoveryActionNames
      { consecutive_failures := 4, network_error_count := 0 } .medium =
      ({ consecutive_failures := 5, network_error_count := 0 }, false, none) := by
  decide

/-- C9: registering the follow-up quiz job twice for the same lesson id
leaves exactly one pending job under the id `quiz_for_lesson_<id>` — the
one from the second registration. -/
theorem c9_schedule_quiz_twice_single_job (jobs : List Job) (lessonId : Nat) :
    ((schedule_quiz_job (schedule_quiz_job jobs lessonId) lessonId).filter
      (fun j => j.id = quizJobId lessonId)) =
      [{ id := quizJobId lessonId, lesson_id := lessonId }] ∧
    ((schedule_quiz_job (schedule_quiz_job jobs lessonId) lessonId).filter
      (fun j => j.id = quizJobId lessonId)).length = 1 := by
  have h : ((schedule_quiz_job (schedule_quiz_job jobs lessonId) lessonId).filter
      (fun j => j.id = quizJobId lessonId)) =
      [{ id := quizJobId lessonId, lesson_id := lessonId }] := by
    simp [schedule_quiz_job, add_job_replace, List.filter_append, List.filter_filter]
  exact ⟨h, by rw [h]; rfl⟩

/-- C7: `_determine_system_mode` returns the most severe applicable tier —
the severity maximum of the three per-resource tiers, each computed against
that resource's normal/degraded/minimal ceilings. -/
theorem c7_determine_system_mode_is_most_severe_tier (t : ResourceThresholds)
    (cpu_percent memory_percent disk_percent : ℚ) :
    determine_system_mode t cpu_percent memory_percent disk_percent =
      modeMax (modeMax
        (resourceTier t.cpu_normal_max t.cpu_degraded_max t.cpu_minimal_max cpu_percent)
        (resourceTier t.memory_normal_max t.memory_degraded_max t.memory_minimal_max
          memory_percent))
        (resourceTier t.disk_normal_max t.disk_degraded_max t.disk_minimal_max
          disk_percent) := by
  unfold determine_system_mode resourceTier modeMax modeSeverity
  by_cases h1 : cpu_percent > t.cpu_minimal_max <;>
    by_cases h2 : memory_percent > t.memory_minimal_max <;>
    by_cases h3 : disk_percent > t.disk_minimal_max <;>
    by_cases h4 : cpu_percent > t.cpu_degraded_max <;>
    by_cases h5 : memory_percent > t.memory_degraded_max <;>
    by_cases h6 : disk_percent > t.disk_degraded_max <;>
    by_cases h7 : cpu_percent > t.cpu_normal_max <;>
    by_cases h8 : memory_percent > t.memory_normal_max <;>
    by_cases h9 : disk_percent > t.disk_normal_max <;>
    simp [h1, h2, h3, h4, h5, h6, h7, h8, h9]

/-- C10: the recovery-opportunity check compares modes by the lexicographic
order of their Python `.value` strings, under which "degraded" < "emergency"
< "minimal" < "normal"; consequently the check can never move the mode to
Normal (its string is the greatest), and from Minimal it will adopt
Emergency as if it were an improvement. -/
theorem c10_recovery_check_uses_string_order (t : ResourceThresholds)
    (current : SystemMode) (cpu_percent memory_percent disk_percent : ℚ) :
    (pyStrLt "degraded" "emergency" = true ∧ pyStrLt "emergency" "minimal" = true ∧
      pyStrLt "minimal" "normal" = true) ∧
    (check_recovery_opportunities t current cpu_percent memory_percent disk_percent =
        .normal → current = .normal) ∧
    (determine_system_mode t cpu_percent memory_percent disk_percent = .emergency →
      check_recovery_opportunities t .minimal cpu_percent memory_percent disk_percent =
        .emergency) := by
  refine ⟨by decide, ?_, ?_⟩
  · intro h
    by_cases hc : current = .normal
    · exact hc
    · exfalso
      unfold check_recovery_opportunities at h
      rw [if_neg hc] at h
      rcases hm : determine_system_mode t cpu_percent memory_percent disk_percent with
        _ | _ | _ | _ <;> rw [hm] at h <;>
        rcases current with _ | _ | _ | _ <;> simp_all [SystemMode.value] <;>
        revert h <;> decide
  · intro h
    have hlt : pyStrLt "emergency" "minimal" = true := by decide
    simp [check_recovery_opportunities, h, SystemMode.value, hlt]

/-- C1 counterexample: a daily post execution whose selector yields no
lesson (scheduler breaker closed, three prior consecutive failures) does
invoke `handle_operation_failure` — once, with Medium severity — and the
consecutive-failure counter does not stay at 3 (the wrapper's success path
then zeroes it), refuting both "HandleOperationFailure is not invoked" and
"the counter is unchanged". -/
theorem c1_no_lesson_invokes_failure_handler :
    (execute_daily_post defaultThresholds defaultRecoveryActionNames 0 true
      { store := [], jobs := [], breaker := initBreaker,
        res := { consecutive_failures := 3, network_error_count := 0 } }
      none { success := false, attempts := 0, permanent_error := false }).opFailures =
      [("daily_post", .medium)] ∧
    (execute_daily_post defaultThresholds defaultRecoveryActionNames 0 true
      { store := [], jobs := [], breaker := initBreaker,
        res := { consecutive_failures := 3, network_error_count := 0 } }
      none { success := false, attempts := 0, permanent_error := false }).opFailures ≠
      [] ∧
    (execute_daily_post defaultThresholds defaultRecoveryActionNames 0 true
      { store := [], jobs := [], breaker := initBreaker,
        res := { consecutive_failures := 3, network_error_count := 0 } }
      none { success := false, attempts := 0, permanent_error := false
        }).final.res.consecutive_failures ≠ 3 := by
  decide

/-- C1 (amended): when the selector yields no lesson and the "scheduler"
breaker is not open, the execution records a `PostingAttempt` with null
lesson id and success false and returns an unsuccessful result — but it does
escalate: `handle_operation_failure` is invoked once with Medium severity,
and on the wrapper's normal exit the consecutive-failure counter ends at
zero. -/
theorem c1_amended_no_lesson_records_and_escalates (t : ResourceThresholds)
    (registry : List String) (now : Nat) (enable_quizzes : Bool)
    (st : SchedState) (sendRes : SendRes) (h : st.breaker.state ≠ .opened) :
    (execute_daily_post t registry now enable_quizzes st none sendRes).history =
      [(none, false)] ∧
    (execute_daily_post t registry now enable_quizzes st none sendRes).success =
      false ∧
    (execute_daily_post t registry now enable_quizzes st none sendRes).opFailures =
      [("daily_post", .medium)] ∧
    (execute_daily_post t registry now enable_quizzes st none sendRes
      ).final.res.consecutive_failures = 0 := by
  unfold execute_daily_post
  rw [if_neg h]
  refine ⟨rfl, rfl, rfl, ?_⟩
  simp only [resilient_operation_success, handle_operation_failure]
  split_ifs <;> simp_all

/-- C1 amended witness: evaluated on the initial scheduler state. -/
theorem c1_amended_no_lesson_witness :
    (execute_daily_post defaultThresholds defaultRecoveryActionNames 0 true
      { store := [], jobs := [], breaker := initBreaker,
        res := { consecutive_failures := 0, network_error_count := 0 } }
      none { success := false, attempts := 0, permanent_error := false }).history =
      [(none, false)] :=
  (c1_amended_no_lesson_records_and_escalates defaultThresholds
    defaultRecoveryActionNames 0 true
    { store := [], jobs := [], breaker := initBreaker,
      res := { consecutive_failures := 0, network_error_count := 0 } }
    { success := false, attempts := 0, permanent_error := false } (by decide)).1

/-- C2 counterexample: a store with two unused lessons, queried twice with
the UnusedFirst strategy and no intervening mark-used, returns the same
first lesson both times — the calls are not pairwise distinct. -/
theorem c2_unused_first_repeats_without_mark_used :
    (get_unused_lessons
      [⟨1, "grammar", 0, none, 0⟩, ⟨2, "vocabulary", 1, none, 0⟩]).length = 2 ∧
    get_next_lesson_calls
      [⟨1, "grammar", 0, none, 0⟩, ⟨2, "vocabulary", 1, none, 0⟩] 2 =
      [some ⟨1, "grammar", 0, none, 0⟩, some ⟨1, "grammar", 0, none, 0⟩] ∧
    ¬ List.Pairwise (· ≠ ·) (get_next_lesson_calls
      [⟨1, "grammar", 0, none, 0⟩, ⟨2, "vocabulary", 1, none, 0⟩] 2) := by
  decide

/-- Sorting a lesson list is a permutation, so membership is preserved. -/
theorem mem_sortLessonsBy {key : Lesson → Nat} {l : List Lesson} {x : Lesson} :
    x ∈ sortLessonsBy key l ↔ x ∈ l :=
  (List.perm_insertionSort _ l).mem_iff

/-- A sorted lesson list is pairwise nondecreasing in its key. -/
theorem pairwise_sortLessonsBy (key : Lesson → Nat) (l : List Lesson) :
    (sortLessonsBy key l).Pairwise (fun a b => key a ≤ key b) := by
  haveI : IsTotal Lesson (fun a b => key a ≤ key b) :=
    ⟨fun a b => Nat.le_total (key a) (key b)⟩
  haveI : IsTrans Lesson (fun a b => key a ≤ key b) :=
    ⟨fun _ _ _ h1 h2 => le_trans h1 h2⟩
  exact List.sorted_insertionSort _ l

/-- C2 (amended): while unused lessons remain, every one of the N calls to
`Next(UnusedFirst)` without an intervening MarkUsed returns the same lesson
— an unused one that is earliest by creation date — rather than N distinct
ones. -/
theorem c2_amended_calls_return_same_first_unused (store : List Lesson)
    (n : Nat) (h : get_unused_lessons store ≠ []) :
    ∃ l, (∀ r ∈ get_next_lesson_calls store n, r = some l) ∧
      l ∈ store ∧ l.last_used = none ∧
      ∀ m ∈ store, m.last_used = none → l.created_at ≤ m.created_at := by
  obtain ⟨l, rest, hlr⟩ := List.exists_cons_of_ne_nil h
  have hmem : l ∈ get_unused_lessons store := by
    rw [hlr]; exact List.mem_cons_self l rest
  have hfilter : l ∈ store.filter (fun x => x.last_used = none) := by
    have hmem' : l ∈ sortLessonsBy (fun x => x.created_at)
        (store.filter fun x => x.last_used = none) := by
      simpa [get_unused_lessons] using hmem
    exact mem_sortLessonsBy.1 hmem'
  have hstore : l ∈ store := (List.mem_filter.1 hfilter).1
  have hunused : l.last_used = none := by
    have := (List.mem_filter.1 hfilter).2
    simpa using this
  have hnext : get_next_lesson store = some l := by
    have hlen : store.length ≠ 0 := by
      intro h0
      rw [List.length_eq_zero] at h0
      rw [h0] at hstore
      exact List.not_mem_nil l hstore
    unfold get_next_lesson select_unused_first
    rw [if_neg hlen]
    simp only [hlr]
  refine ⟨l, ?_, hstore, hunused, ?_⟩
  · intro r hr
    unfold get_next_lesson_calls at hr
    rw [List.eq_of_mem_replicate hr, hnext]
  · intro m hm hmnone
    have hmfilter : m ∈ store.filter (fun x => x.last_used = none) :=
      List.mem_filter.2 ⟨hm, by simpa using hmnone⟩
    have hmsorted : m ∈ get_unused_lessons store := by
      have : m ∈ sortLessonsBy (fun x => x.created_at)
          (store.filter fun x => x.last_used = none) :=
        mem_sortLessonsBy.2 hmfilter
      simpa [get_unused_lessons] using this
    rw [hlr] at hmsorted
    rcases List.mem_cons.1 hmsorted with hml | hmrest
    · rw [hml]
    · have hpw := pairwise_sortLessonsBy (fun x => x.created_at)
        (store.filter fun x => x.last_used = none)
      rw [show sortLessonsBy (fun x => x.created_at)
          (store.filter fun x => x.last_used = none) = l :: rest from hlr] at hpw
      exact (List.pairwise_cons.1 hpw).1 m hmrest

/-- C2 amended witness: evaluated on a two-lesson store over three calls. -/
theorem c2_amended_witness :
    ∃ l, (∀ r ∈ get_next_lesson_calls
        [⟨1, "grammar", 0, none, 0⟩, ⟨2, "vocabulary", 1, none, 0⟩] 3,
        r = some l) ∧
      l ∈ ([⟨1, "grammar", 0, none, 0⟩, ⟨2, "vocabulary", 1, none, 0⟩] :
        List Lesson) ∧ l.last_used = none ∧
      ∀ m ∈ ([⟨1, "grammar", 0, none, 0⟩, ⟨2, "vocabulary", 1, none, 0⟩] :
        List Lesson), m.last_used = none → l.created_at ≤ m.created_at :=
  c2_amended_calls_return_same_first_unused
    [⟨1, "grammar", 0, none, 0⟩, ⟨2, "vocabulary", 1, none, 0⟩] 3 (by decide)

/-- C5 counterexample: a send run whose only failure is a single RateLimited
(RetryAfter 7) attempt, starting from a closed "telegram_api" breaker one
failure shy of its threshold: the loop sleeps the channel-provided 7 seconds
(not the 60-second backoff), yet the breaker opens — the RateLimited failure
was counted toward the failure threshold, refuting the "not counted"
clause. -/
theorem c5_rate_limited_opens_breaker :
    (send_with_retry defaultThresholds defaultRecoveryActionNames true 60 3 0
      (fun _ => .retryAfter 7)
      { breaker := { state := .closed, failure_count := 4, last_failure := some 0,
                       timeout := 300, failure_threshold := 5 },
        res := { consecutive_failures := 0, network_error_count := 0 } }).sleeps =
      [(0, 7)] ∧
    (send_with_retry defaultThresholds defaultRecoveryActionNames true 60 3 0
      (fun _ => .retryAfter 7)
      { breaker := { state := .closed, failure_count := 4, last_failure := some 0,
                       timeout := 300, failure_threshold := 5 },
        res := { consecutive_failures := 0, network_error_count := 0 }
      }).final.breaker.state = .opened ∧
    (send_with_retry defaultThresholds defaultRecoveryActionNames true 60 3 0
      (fun _ => .retryAfter 7)
      { breaker := { state := .closed, failure_count := 4, last_failure := some 0,
                       timeout := 300, failure_threshold := 5 },
        res := { consecutive_failures := 0, network_error_count := 0 }
      }).final.breaker.failure_count = 5 := by
  decide

/-- C5 (amended): a RateLimited (RetryAfter) failure makes the retry loop
sleep the channel-provided wait time instead of the computed exponential
backoff, but the failure IS counted toward the delivery dependency's
circuit breaker: the `resilient_operation` wrapper surrounding the send
records a breaker failure (incrementing the failure count by one) and an
operation failure (incrementing the consecutive-failure counter) before the
RetryAfter handler runs. -/
theorem c5_amended_rate_limited_sleeps_and_counts (t : ResourceThresholds)
    (registry : List String) (rr : Bool) (d k now : Nat)
    (script : Nat → SendOutcome) (st : BotState) (i fuel w : Nat)
    (hopen : st.breaker.state ≠ .opened) (hs : script i = .retryAfter w) :
    (send_with_retry_go t registry rr d k now script st i (fuel + 1)).sleeps =
      (i, w) :: (send_with_retry_go t registry rr d k now script
        { breaker := (resilient_operation_failure t registry now st.breaker st.res).1,
          res := (resilient_operation_failure t registry now st.breaker st.res).2 }
        (i + 1) fuel).sleeps ∧
    (resilient_operation_failure t registry now st.breaker st.res).1.failure_count =
      st.breaker.failure_count + 1 ∧
    (resilient_operation_failure t registry now st.breaker
      st.res).2.consecutive_failures = st.res.consecutive_failures + 1 := by
  refine ⟨?_, ?_, ?_⟩
  · simp only [send_with_retry_go]
    rw [if_neg hopen, hs]
  · unfold resilient_operation_failure record_circuit_breaker_failure
    by_cases hth : st.breaker.failure_count + 1 ≥ st.breaker.failure_threshold <;>
      simp [hth]
  · unfold resilient_operation_failure handle_operation_failure
      execute_recovery_action
    dsimp only
    split_ifs <;> rfl

/-- C5 amended witness: evaluated on a fresh breaker with a RetryAfter 7
outcome at attempt 0. -/
theorem c5_amended_witness :
    (send_with_retry_go defaultThresholds defaultRecoveryActionNames true 60 3 0
      (fun _ => .retryAfter 7)
      { breaker := initBreaker,
        res := { consecutive_failures := 0, network_error_count := 0 } } 0
      (3 + 1)).sleeps =
      (0, 7) :: (send_with_retry_go defaultThresholds defaultRecoveryActionNames
        true 60 3 0 (fun _ => .retryAfter 7)
        { breaker := (resilient_operation_failure defaultThresholds
            defaultRecoveryActionNames 0 initBreaker
            { consecutive_failures := 0, network_error_count := 0 }).1,
          res := (resilient_operation_failure defaultThresholds
            defaultRecoveryActionNames 0 initBreaker
            { consecutive_failures := 0, network_error_count := 0 }).2 } 1 3).sleeps :=
  (c5_amended_rate_limited_sleeps_and_counts defaultThresholds
    defaultRecoveryActionNames true 60 3 0 (fun _ => .retryAfter 7)
    { breaker := initBreaker,
      res := { consecutive_failures := 0, network_error_count := 0 } } 0 3 7
    (by decide) rfl).1

/-- Every sleep the retry loop performs is either a RateLimited override
(the channel-provided wait) or, for a network or Telegram error on an
attempt that still has retries left, exactly `retry_delay * 2 ^ attempt`. -/
theorem send_with_retry_go_sleeps_spec (t : ResourceThresholds)
    (registry : List String) (rr : Bool) (d k now : Nat)
    (script : Nat → SendOutcome) :
    ∀ fuel i st p,
      p ∈ (send_with_retry_go t registry rr d k now script st i fuel).sleeps →
      (∃ w, script p.1 = .retryAfter w ∧ p.2 = w) ∨
      ((∃ m, script p.1 = .netError m) ∨ (∃ m, script p.1 = .telegramError m)) ∧
        p.1 < k ∧ p.2 = d * 2 ^ p.1 := by
  intro fuel
  induction fuel with
  | zero =>
    intro i st p hp
    simp [send_with_retry_go] at hp
  | succ fuel ih =>
    intro i st p hp
    by_cases hopen : st.breaker.state = .opened
    · simp [send_with_retry_go, hopen] at hp
    · simp only [send_with_retry_go] at hp
      rw [if_neg hopen] at hp
      rcases hs : script i with mid | m | w | m | m | m <;> rw [hs] at hp <;>
        dsimp only at hp
      · simp at hp
      · simp at hp
      · rcases List.mem_cons.1 hp with hpe | hp'
        · exact Or.inl ⟨w, by rw [hpe]; exact hs, by rw [hpe]⟩
        · exact ih (i + 1) _ p hp'
      · by_cases hik : i < k
        · rw [if_pos hik] at hp
          dsimp only at hp
          rcases List.mem_cons.1 hp with hpe | hp'
          · refine Or.inr ⟨Or.inl ⟨m, by rw [hpe]; exact hs⟩, ?_, ?_⟩
            · rw [hpe]; exact hik
            · rw [hpe]
          · exact ih (i + 1) _ p hp'
        · rw [if_neg hik] at hp
          exact ih (i + 1) _ p hp
      · by_cases hik : i < k
        · rw [if_pos hik] at hp
          dsimp only at hp
          rcases List.mem_cons.1 hp with hpe | hp'
          · refine Or.inr ⟨Or.inr ⟨m, by rw [hpe]; exact hs⟩, ?_, ?_⟩
            · rw [hpe]; exact hik
            · rw [hpe]
          · exact ih (i + 1) _ p hp'
        · rw [if_neg hik] at hp
          exact ih (i + 1) _ p hp
      · simp at hp

/-- C8: every sleep of a `_send_with_retry` run after failed attempt `i`
equals `retry_delay * 2 ^ i` (for a transient network/Telegram failure with
retries left), except that a RateLimited error replaces it with the
channel-provided wait; and for a positive base delay the computed backoff
is strictly increasing in the attempt index. -/
theorem c8_backoff_growth (t : ResourceThresholds) (registry : List String)
    (rr : Bool) (d k now : Nat) (script : Nat → SendOutcome) (st : BotState)
    (p : Nat × Nat)
    (hp : p ∈ (send_with_retry t registry rr d k now script st).sleeps)
    (hd : 0 < d) :
    ((∃ w, script p.1 = .retryAfter w ∧ p.2 = w) ∨
      ((∃ m, script p.1 = .netError m) ∨ (∃ m, script p.1 = .telegramError m)) ∧
        p.1 < k ∧ p.2 = d * 2 ^ p.1) ∧
    StrictMono (fun i : Nat => d * 2 ^ i) := by
  constructor
  · unfold send_with_retry at hp
    by_cases hopen : st.breaker.state = .opened
    · simp [hopen] at hp
    · rw [if_neg hopen] at hp
      exact send_with_retry_go_sleeps_spec t registry rr d k now script _ _ _ _ hp
  · intro a b hab
    have h2 : (2 : Nat) ^ a < 2 ^ b := Nat.pow_lt_pow_right (by norm_num) hab
    exact mul_lt_mul_of_pos_left h2 hd

/-- C8 witness: a run of three transient network failures with base delay 60
sleeps 60, 120, 240; the first recorded sleep matches the formula and the
backoff sequence is strictly monotone. -/
theorem c8_backoff_witness :
    StrictMono (fun i : Nat => 60 * 2 ^ i) :=
  (c8_backoff_growth defaultThresholds defaultRecoveryActionNames true 60 3 0
    (fun _ => .netError "boom")
    { breaker := initBreaker,
      res := { consecutive_failures := 0, network_error_count := 0 } }
    (0, 60) (by decide) (by decide)).2

/-- C10 witness: with default thresholds, a recovery check in Normal stays
Normal, and a check in Minimal while the readings imply Emergency (CPU at
96%) adopts Emergency. -/
theorem c10_recovery_check_witness :
    SystemMode.normal = SystemMode.normal ∧
    check_recovery_opportunities defaultThresholds .minimal 96 0 0 = .emergency :=
  ⟨(c10_recovery_check_uses_string_order defaultThresholds .normal 0 0 0).2.1
      (by decide),
   (c10_recovery_check_uses_string_order defaultThresholds .minimal 96 0 0).2.2
      (by decide)⟩
